import Mathlib

/-!
Verification of the Lumina RAG PWA client shell: a shallow embedding of
the service worker cache lifecycle (install / activate / fetch / message
handlers of `public/sw.js`), of the `usePWAInstall` install-flow hook, and
of the `useDataManagement` upload/indexing hook, with theorems settling
the specification's claims about them.
-/

namespace LuminaRag

/-! ## Cache lifecycle manager (service worker)

Requests are keyed by their URL string.  A `Response` records the fields
the worker inspects: HTTP status, status text, content type, the response
type (`"basic"` for same-origin) and an abstract body. -/

abbrev Url := String

structure Response where
  status : Nat
  statusText : String
  contentType : String
  rtype : String
  body : String
  deriving Repr, DecidableEq

/-- A named cache generation: an ordered list of (request-key, response)
entries, as stored by the browser Cache API. -/
structure Cache where
  name : String
  entries : List (Url × Response)
  deriving Repr, DecidableEq

/-- The origin's cache storage: the caches in creation order (the order
`caches.match` consults them). -/
abbrev CacheStorage := List Cache

/-- `const CACHE_NAME = 'lumina-rag-v1'` -/
def CACHE_NAME : String := "lumina-rag-v1"

/-- `const STATIC_CACHE_NAME = 'lumina-rag-static-v1'` -/
def STATIC_CACHE_NAME : String := "lumina-rag-static-v1"

/-- `const DYNAMIC_CACHE_NAME = 'lumina-rag-dynamic-v1'` -/
def DYNAMIC_CACHE_NAME : String := "lumina-rag-dynamic-v1"

/-- The literal namespace tag tested by `cacheName.startsWith('lumina-rag-')`
in the activate handler. -/
def APP_CACHE_NS : String := "lumina-rag-"

/-- The offline fallback page looked up by `caches.match('/index.html')`. -/
def INDEX_HTML : Url := "/index.html"

/-- `const STATIC_ASSETS = [...]`: the fixed install manifest. -/
def STATIC_ASSETS : List Url :=
  ["/", "/index.html", "/lumina.svg", "/manifest.json",
   "/src/main.tsx", "/src/App.tsx", "/src/index.css"]

/-- `cache.match(request)` on a single cache: the first entry stored under
the request key, if any. -/
def cacheMatchEntry (c : Cache) (u : Url) : Option Response :=
  (c.entries.find? (fun e => e.1 == u)).map (fun e => e.2)

/-- `caches.match(request)`: consult the caches in creation order and
return the first hit. -/
def cachesMatch : CacheStorage → Url → Option Response
  | [], _ => none
  | c :: rest, u =>
    match cacheMatchEntry c u with
    | some r => some r
    | none => cachesMatch rest u

/-- `caches.open(name)`: create the named cache (empty, appended in
creation order) when it does not exist yet. -/
def cachesOpen (cs : CacheStorage) (n : String) : CacheStorage :=
  if cs.any (fun c => c.name == n) then cs else cs ++ [⟨n, []⟩]

/-- Retrieve the named cache from the storage (defaulting to an empty one;
callers always open the cache first). -/
def getCache (cs : CacheStorage) (n : String) : Cache :=
  (cs.find? (fun c => c.name == n)).getD ⟨n, []⟩

/-- Write back an updated cache under its name. -/
def updateCache (cs : CacheStorage) (c : Cache) : CacheStorage :=
  cs.map (fun c0 => if c0.name == c.name then c else c0)

/-- `cache.put(request, response)`: overwrite the entry for the request
key, or append a new entry. -/
def cachePut (c : Cache) (u : Url) (r : Response) : Cache :=
  if c.entries.any (fun e => e.1 == u) then
    ⟨c.name, c.entries.map (fun e => if e.1 == u then (u, r) else e)⟩
  else
    ⟨c.name, c.entries ++ [(u, r)]⟩

/-- A response the Cache API treats as ok (2xx); `addAll` rejects for any
response outside this range. -/
def respOk (r : Response) : Bool := 200 ≤ r.status && r.status < 300

/-- The fetch phase of `cache.addAll(urls)`: fetch every URL in order;
fail (reject) as soon as a fetch rejects or yields a non-ok response.
The network is modelled as `net : Url → Option Response`, `none` standing
for a rejected fetch. -/
def fetchAll (net : Url → Option Response) : List Url → Option (List (Url × Response))
  | [] => some []
  | u :: rest =>
    match net u with
    | none => none
    | some r =>
      if respOk r then (fetchAll net rest).map (fun l => (u, r) :: l) else none

/-- `cache.addAll(urls)`: fetch all URLs, then commit the entries in one
batch.  Per the Cache API batch-cache-operations algorithm the commit is
atomic: if any fetch fails or any response is non-ok, the whole call
rejects and the cache is left unchanged. -/
def cacheAddAll (net : Url → Option Response) (c : Cache) (urls : List Url) : Option Cache :=
  (fetchAll net urls).map (fun l => l.foldl (fun acc e => cachePut acc e.1 e.2) c)

/-- Outcome of the install handler: the resulting cache storage, whether
the promise handed to `event.waitUntil` rejected, whether
`self.skipWaiting()` was reached, and whether the error diagnostic was
logged by the trailing `.catch`. -/
structure InstallResult where
  storage : CacheStorage
  promiseRejected : Bool
  skipWaitingCalled : Bool
  loggedError : Bool
  deriving Repr, DecidableEq

/-- The `install` listener: open the static generation, `addAll` the fixed
manifest, then `skipWaiting`; the chain ends in
`.catch((error) => console.error(...))`, so on failure the error is logged
and the promise given to `waitUntil` resolves. -/
def handleInstall (net : Url → Option Response) (cs : CacheStorage) : InstallResult :=
  let cs1 := cachesOpen cs STATIC_CACHE_NAME
  match cacheAddAll net (getCache cs1 STATIC_CACHE_NAME) STATIC_ASSETS with
  | some c2 =>
    { storage := updateCache cs1 c2, promiseRejected := false,
      skipWaitingCalled := true, loggedError := false }
  | none =>
    { storage := cs1, promiseRejected := false,
      skipWaitingCalled := false, loggedError := true }

/-- The deletion predicate of the `activate` listener: remove a cache
whose name differs from both current generation names and carries the
application namespace tag. -/
def shouldDeleteCache (n : String) : Bool :=
  (!(n == STATIC_CACHE_NAME)) && (!(n == DYNAMIC_CACHE_NAME)) && n.startsWith APP_CACHE_NS

/-- The `activate` listener: enumerate all cache names and delete every
one matching `shouldDeleteCache`. -/
def handleActivate (cs : CacheStorage) : CacheStorage :=
  cs.filter (fun c => !(shouldDeleteCache c.name))

/-- `request.destination`, as far as the worker inspects it. -/
inductive Destination
  | document
  | other
  deriving Repr, DecidableEq

structure Request where
  url : Url
  destination : Destination
  deriving Repr, DecidableEq

/-- The synthesized offline response:
`new Response('Offline - content not available', { status: 503, ... })`. -/
def offlineResponse : Response :=
  { status := 503, statusText := "Service Unavailable",
    contentType := "text/plain", rtype := "default",
    body := "Offline - content not available" }

/-- `caches.open(DYNAMIC_CACHE_NAME).then(cache => cache.put(request, clone))`. -/
def dynamicCachePut (cs : CacheStorage) (u : Url) (r : Response) : CacheStorage :=
  let cs1 := cachesOpen cs DYNAMIC_CACHE_NAME
  updateCache cs1 (cachePut (getCache cs1 DYNAMIC_CACHE_NAME) u r)

/-- Outcome of one fetch interception: the response delivered to
`event.respondWith` (`none` models `respondWith(undefined)`), whether a
network fetch was performed, and the cache storage afterwards. -/
structure FetchResult where
  response : Option Response
  networkCalled : Bool
  storage : CacheStorage
  deriving Repr, DecidableEq

/-- The `respondWith` chain of the `fetch` listener, for an intercepted
request (same-origin and not matching the excluded-path predicate):
cache-first lookup; on miss a network fetch, caching successful basic 200
responses into the dynamic generation; on network rejection the cached
`/index.html` for document destinations, else the synthesized 503. -/
def handleFetch (net : Url → Option Response) (cs : CacheStorage) (req : Request) : FetchResult :=
  match cachesMatch cs req.url with
  | some cached => { response := some cached, networkCalled := false, storage := cs }
  | none =>
    match net req.url with
    | some response =>
      if response.status == 200 && response.rtype == "basic" then
        { response := some response, networkCalled := true,
          storage := dynamicCachePut cs req.url response }
      else
        { response := some response, networkCalled := true, storage := cs }
    | none =>
      match req.destination with
      | Destination.document =>
        { response := cachesMatch cs INDEX_HTML, networkCalled := true, storage := cs }
      | Destination.other =>
        { response := some offlineResponse, networkCalled := true, storage := cs }

/-- The cache storage after `k` repetitions of intercepting the same
request. -/
def fetchRepeat (net : Url → Option Response) (req : Request) (cs : CacheStorage) : Nat → CacheStorage
  | 0 => cs
  | Nat.succ k => (handleFetch net (fetchRepeat net req cs k) req).storage

/-- The `CACHE_URLS` branch of the `message` listener:
`caches.open(DYNAMIC_CACHE_NAME).then(cache => cache.addAll(event.data.urls))`. -/
def handleCacheUrls (net : Url → Option Response) (cs : CacheStorage) (urls : List Url) : CacheStorage :=
  let cs1 := cachesOpen cs DYNAMIC_CACHE_NAME
  match cacheAddAll net (getCache cs1 DYNAMIC_CACHE_NAME) urls with
  | some c2 => updateCache cs1 c2
  | none => cs1

/-! ## Install flow controller (`usePWAInstall` hook)

The hook's state is the four React state cells; its dynamics are the
event handlers it registers (`checkInstalled`, run once at mount and then
by the 1-second `setInterval`; `handleBeforeInstallPrompt`;
`handleAppInstalled`) and the imperative `promptInstall`. -/

/-- The three installed-detection signals read by `checkInstalled`:
`matchMedia('(display-mode: standalone)').matches`,
`navigator.standalone`, and
`document.referrer.includes('android-app://')`. -/
structure Signals where
  displayModeStandalone : Bool
  navigatorStandalone : Bool
  referrerAndroidApp : Bool
  deriving Repr, DecidableEq

/-- An opaque identity for a captured `beforeinstallprompt` event. -/
abbrev PromptId := Nat

inductive Outcome
  | accepted
  | dismissed
  deriving Repr, DecidableEq

/-- How one invocation of the captured prompt resolves: the user's
`userChoice` outcome, or a throw from the `prompt()` call itself. -/
inductive PromptResult
  | choice (o : Outcome)
  | threw
  deriving Repr, DecidableEq

/-- The hook's state cells: `canInstall`, `isInstalled`, `isPrompting`,
`deferredPrompt`. -/
structure HookState where
  canInstall : Bool
  isInstalled : Bool
  isPrompting : Bool
  deferredPrompt : Option PromptId
  deriving Repr, DecidableEq

/-- The `useState` initial values. -/
def initState : HookState :=
  { canInstall := false, isInstalled := false, isPrompting := false,
    deferredPrompt := none }

/-- Observable side effects of one `promptInstall()` call: whether the
unavailability warning was logged and whether the native prompt was
invoked. -/
structure PromptObs where
  warned : Bool
  prompted : Bool
  deriving Repr, DecidableEq

/-- `promptInstall()`: warn and return when no capture is held; otherwise
set `isPrompting`, invoke the capture, and on every path — accepted,
dismissed, or thrown — clear the capture and `canInstall`, setting
`isInstalled` on acceptance; the `finally` clears `isPrompting`. -/
def promptInstallStep (s : HookState) (res : PromptResult) : HookState × PromptObs :=
  match s.deferredPrompt with
  | none => (s, { warned := true, prompted := false })
  | some _ =>
    let installed :=
      match res with
      | PromptResult.choice Outcome.accepted => true
      | PromptResult.choice Outcome.dismissed => s.isInstalled
      | PromptResult.threw => s.isInstalled
    ({ canInstall := false, isInstalled := installed, isPrompting := false,
       deferredPrompt := none },
     { warned := false, prompted := true })

/-- The events a hook execution consists of. -/
inductive Event
  | checkInstalled (sig : Signals)
  | beforeInstallPrompt (hasPrompt : Bool) (p : PromptId)
  | appInstalled
  | promptInstall (res : PromptResult)
  deriving Repr, DecidableEq

/-- One step of the controller: `checkInstalled` sets `isInstalled` to the
disjunction of the three signals; `handleBeforeInstallPrompt` (when the
event carries `prompt`) captures the event and sets `canInstall`;
`handleAppInstalled` sets `isInstalled`, clears `canInstall` and the
capture; `promptInstall` is `promptInstallStep`. -/
def step (s : HookState) : Event → HookState
  | Event.checkInstalled sig =>
    { s with isInstalled :=
        sig.displayModeStandalone || sig.navigatorStandalone || sig.referrerAndroidApp }
  | Event.beforeInstallPrompt hasPrompt p =>
    if hasPrompt then { s with deferredPrompt := some p, canInstall := true } else s
  | Event.appInstalled =>
    { s with isInstalled := true, canInstall := false, deferredPrompt := none }
  | Event.promptInstall res => (promptInstallStep s res).1

/-! ## Data management (`useDataManagement` hook) -/

/-- A `FileItem`: name, the id generated at upload time, and the optional
content (absent when the text read failed). -/
structure FileItem where
  name : String
  id : Nat
  content : Option String
  deriving Repr, DecidableEq

/-- `addFile`: `setFilesState(prev => [...prev, file])`. -/
def addFile (files : List FileItem) (f : FileItem) : List FileItem :=
  files ++ [f]

/-- `handleFileUpload(file)`: draw a fresh id, await `file.text()`; on
success add the item with its content, on rejection log and add the item
without content.  The awaited read is modelled by `readResult`. -/
def handleFileUpload (files : List FileItem) (fileName : String) (fileId : Nat)
    (readResult : Except String String) : List FileItem :=
  match readResult with
  | Except.ok content => addFile files { name := fileName, id := fileId, content := some content }
  | Except.error _ => addFile files { name := fileName, id := fileId, content := none }

/-- The state cells of `useDataManagement` that `indexDocuments` touches. -/
structure DMState where
  files : List FileItem
  isIndexing : Bool
  ragStatus : String
  deriving Repr, DecidableEq

/-- `indexDocuments(ragIndexFunction?)`: return immediately when the file
list is empty; otherwise mark indexing, run the callback (or the simulated
delay when absent), set the status according to success or failure, and
clear `isIndexing` in the `finally`.  The second component records whether
the supplied callback was invoked. -/
def indexDocuments (s : DMState)
    (ragIndexFunction : Option (List FileItem → Except String Unit)) : DMState × Bool :=
  if s.files.length = 0 then (s, false)
  else
    match ragIndexFunction with
    | some f =>
      match f s.files with
      | Except.ok _ =>
        ({ s with isIndexing := false, ragStatus := "Knowledge Base Ready" }, true)
      | Except.error _ =>
        ({ s with isIndexing := false, ragStatus := "Indexing Failed" }, true)
    | none =>
      ({ s with isIndexing := false, ragStatus := "Knowledge Base Ready" }, false)

/-! ## Helper lemmas -/

/-- Appending a freshly created empty cache never changes a lookup. -/
theorem cachesMatch_append_empty (cs : CacheStorage) (n : String) (u : Url) :
    cachesMatch (cs ++ [⟨n, []⟩]) u = cachesMatch cs u := by
  induction cs with
  | nil => rfl
  | cons c rest ih =>
    show cachesMatch (c :: (rest ++ [⟨n, []⟩])) u = cachesMatch (c :: rest) u
    unfold cachesMatch
    cases cacheMatchEntry c u <;> simp [ih]

/-- `caches.open` never changes a lookup: it either finds the cache or
creates an empty one. -/
theorem cachesMatch_cachesOpen (cs : CacheStorage) (n : String) (u : Url) :
    cachesMatch (cachesOpen cs n) u = cachesMatch cs u := by
  unfold cachesOpen
  split
  · rfl
  · exact cachesMatch_append_empty cs n u

/-- If the fetch of some listed URL rejects, the fetch phase of `addAll`
rejects. -/
theorem fetchAll_none_of_mem {net : Url → Option Response} {u : Url} {urls : List Url}
    (hu : u ∈ urls) (hfail : net u = none) : fetchAll net urls = none := by
  induction urls with
  | nil => cases hu
  | cons a rest ih =>
    rcases List.mem_cons.mp hu with rfl | hmem
    · simp [fetchAll, hfail]
    · unfold fetchAll
      cases hna : net a with
      | none => rfl
      | some r => simp [ih hmem]

/-! ## Claim theorems: cache lifecycle -/

/-- Claim C3: a cache generation name present before the activate
transition remains after activation if and only if it equals the current
static generation name, or the current dynamic generation name, or does
not start with the application's cache-namespace tag. -/
theorem activation_cleanup (cs : CacheStorage) (n : String) :
    (∃ c ∈ handleActivate cs, c.name = n) ↔
      ((∃ c ∈ cs, c.name = n) ∧
        (n = STATIC_CACHE_NAME ∨ n = DYNAMIC_CACHE_NAME ∨
          n.startsWith APP_CACHE_NS = false)) := by
  unfold handleActivate
  constructor
  · rintro ⟨c, hc, rfl⟩
    rw [List.mem_filter] at hc
    obtain ⟨hm, hp⟩ := hc
    refine ⟨⟨c, hm, rfl⟩, ?_⟩
    have hp' := hp
    unfold shouldDeleteCache at hp'
    rcases hs : (c.name == STATIC_CACHE_NAME) with _ | _
    · rcases hd : (c.name == DYNAMIC_CACHE_NAME) with _ | _
      · refine Or.inr (Or.inr ?_)
        rw [hs, hd] at hp'
        simpa using hp'
      · exact Or.inr (Or.inl (by simpa using hd))
    · exact Or.inl (by simpa using hs)
  · rintro ⟨⟨c, hm, rfl⟩, hcond⟩
    refine ⟨c, List.mem_filter.mpr ⟨hm, ?_⟩, rfl⟩
    unfold shouldDeleteCache
    rcases hcond with h | h | h
    · simp [h]
    · simp [h]
    · simp [h]

/-- Claim C4: cache-first invariant — when the request key has a cached
entry in some existing generation, every repetition of fetch interception
returns that entry unchanged, performs no network fetch, and leaves the
cache storage unchanged (so the invariant persists until the owning
generation is deleted). -/
theorem cache_first (net : Url → Option Response) (cs : CacheStorage) (req : Request)
    (r : Response) (h : cachesMatch cs req.url = some r) :
    ∀ k, fetchRepeat net req cs k = cs ∧
      handleFetch net (fetchRepeat net req cs k) req =
        { response := some r, networkCalled := false, storage := cs } := by
  intro k
  induction k with
  | zero => exact ⟨rfl, by simp [fetchRepeat, handleFetch, h]⟩
  | succ k ih =>
    have h1 : fetchRepeat net req cs (k + 1) = cs := by
      show (handleFetch net (fetchRepeat net req cs k) req).storage = cs
      rw [ih.2]
    refine ⟨h1, ?_⟩
    rw [h1]
    simp [handleFetch, h]

/-- A network that always fails. -/
def netDown : Url → Option Response := fun _ => none

/-- A generic cached 200 response used in concrete scenarios. -/
def cxCachedResp : Response :=
  { status := 200, statusText := "OK", contentType := "text/html",
    rtype := "basic", body := "cached" }

/-- A storage whose static generation holds the root document fallback. -/
def cxStorage : CacheStorage := [⟨STATIC_CACHE_NAME, [(INDEX_HTML, cxCachedResp)]⟩]

/-- A document request for the cached fallback page. -/
def cxDocReq : Request := { url := INDEX_HTML, destination := Destination.document }

/-- Witness for C4: on a storage whose static generation caches the
request key, interception returns the cached entry with no network call. -/
theorem cache_first_witness :
    handleFetch netDown cxStorage cxDocReq =
      { response := some cxCachedResp, networkCalled := false, storage := cxStorage } :=
  (cache_first netDown cxStorage cxDocReq cxCachedResp (by decide) 0).2

/-- Claim C5: offline fallback — for an intercepted request with no
cached entry whose network fetch rejects, a document-destination request
is answered with the previously cached root document, and any other
request with the synthesized plain-text 503 response; in both cases a
response is delivered rather than a rejection. -/
theorem offline_fallback (net : Url → Option Response) (cs : CacheStorage) (req : Request)
    (root : Response)
    (hmiss : cachesMatch cs req.url = none)
    (hnet : net req.url = none)
    (hroot : cachesMatch cs INDEX_HTML = some root) :
    (req.destination = Destination.document →
      handleFetch net cs req =
        { response := some root, networkCalled := true, storage := cs }) ∧
    (req.destination = Destination.other →
      handleFetch net cs req =
        { response := some offlineResponse, networkCalled := true, storage := cs } ∧
        offlineResponse.status = 503 ∧ offlineResponse.contentType = "text/plain") := by
  constructor
  · intro hd
    simp [handleFetch, hmiss, hnet, hd, hroot]
  · intro hd
    exact ⟨by simp [handleFetch, hmiss, hnet, hd], rfl, rfl⟩

/-- A request key absent from `cxStorage`. -/
def cxMissReq : Request := { url := "/missing", destination := Destination.document }

/-- Witness for C5: with the network down and the root document cached, a
document request is answered with the cached root document. -/
theorem offline_fallback_witness :
    handleFetch netDown cxStorage cxMissReq =
      { response := some cxCachedResp, networkCalled := true, storage := cxStorage } :=
  (offline_fallback netDown cxStorage cxMissReq cxCachedResp (by decide) rfl
    (by decide)).1 rfl

/-- The root document URL, first entry of the install manifest. -/
def ROOT_URL : Url := "/"

/-- A network on which only the root URL fetch succeeds, so a manifest
fetch fails partway through the install manifest. -/
def cxNetRootOnly : Url → Option Response :=
  fun u => if u == ROOT_URL then some cxCachedResp else none

/-- Counterexample to claim C1 as stated: on a network where a manifest
URL's fetch fails, the promise handed to `event.waitUntil` does NOT
reject — the trailing catch logs the error and resolves the chain (and,
consistent with the rest of the claim, nothing is committed: even the
root URL whose fetch succeeded is absent afterwards). -/
theorem install_reject_cx :
    cxNetRootOnly INDEX_HTML = none ∧ INDEX_HTML ∈ STATIC_ASSETS ∧
    (handleInstall cxNetRootOnly []).promiseRejected = false ∧
    (handleInstall cxNetRootOnly []).loggedError = true ∧
    cachesMatch (handleInstall cxNetRootOnly []).storage ROOT_URL = none := by
  decide

/-- Claim C1 (amended): if fetching any manifest URL fails, no partial
manifest is committed (the storage gains at most an empty static
generation and every lookup is unchanged) and `skipWaiting` is not
reached; the failure is surfaced only via the diagnostic log of the
trailing catch, so the promise passed to `event.waitUntil` resolves
rather than rejects. -/
theorem install_failure_swallowed (net : Url → Option Response) (cs : CacheStorage)
    (u : Url) (hu : u ∈ STATIC_ASSETS) (hfail : net u = none) :
    (handleInstall net cs).promiseRejected = false ∧
    (handleInstall net cs).skipWaitingCalled = false ∧
    (handleInstall net cs).loggedError = true ∧
    (handleInstall net cs).storage = cachesOpen cs STATIC_CACHE_NAME ∧
    ∀ v, cachesMatch (handleInstall net cs).storage v = cachesMatch cs v := by
  have hfa : fetchAll net STATIC_ASSETS = none := fetchAll_none_of_mem hu hfail
  have hst : handleInstall net cs =
      { storage := cachesOpen cs STATIC_CACHE_NAME, promiseRejected := false,
        skipWaitingCalled := false, loggedError := true } := by
    simp [handleInstall, cacheAddAll, hfa]
  rw [hst]
  exact ⟨rfl, rfl, rfl, rfl, fun v => cachesMatch_cachesOpen cs STATIC_CACHE_NAME v⟩

/-- Witness for the amended C1: with the network down entirely, the
install promise resolves and the diagnostic is logged. -/
theorem install_failure_swallowed_witness :
    (handleInstall netDown []).promiseRejected = false ∧
    (handleInstall netDown []).skipWaitingCalled = false :=
  ⟨(install_failure_swallowed netDown [] INDEX_HTML (by decide) rfl).1,
   (install_failure_swallowed netDown [] INDEX_HTML (by decide) rfl).2.1⟩

/-- A URL whose fetch succeeds in the C7 scenario. -/
def cxUrlA : Url := "/cache-me-ok"

/-- A URL whose fetch rejects in the C7 scenario. -/
def cxUrlB : Url := "/cache-me-fail"

/-- A network on which `cxUrlA` succeeds and everything else rejects. -/
def cxNetAOnly : Url → Option Response :=
  fun u => if u == cxUrlA then some cxCachedResp else none

/-- Counterexample to claim C7 as stated: in a `CACHE_URLS` list whose
first URL fetches successfully and whose second fails, the first URL does
NOT remain cached after the handler — `cache.addAll` commits atomically,
so the partway failure discards the successfully fetched URL as well. -/
theorem cache_urls_partial_cx :
    cxNetAOnly cxUrlA = some cxCachedResp ∧ respOk cxCachedResp = true ∧
    cxNetAOnly cxUrlB = none ∧
    cachesMatch (handleCacheUrls cxNetAOnly [] [cxUrlA, cxUrlB]) cxUrlA = none := by
  decide

/-- Claim C7 (amended): the `CACHE_URLS` control message populates the
dynamic generation atomically, not best-effort — if caching fails partway
through the caller-provided list, none of the listed URLs is committed:
the storage gains at most an empty dynamic generation and every lookup is
unchanged. -/
theorem cache_urls_atomic (net : Url → Option Response) (cs : CacheStorage)
    (urls : List Url) (h : fetchAll net urls = none) :
    handleCacheUrls net cs urls = cachesOpen cs DYNAMIC_CACHE_NAME ∧
    ∀ u, cachesMatch (handleCacheUrls net cs urls) u = cachesMatch cs u := by
  have h1 : handleCacheUrls net cs urls = cachesOpen cs DYNAMIC_CACHE_NAME := by
    simp [handleCacheUrls, cacheAddAll, h]
  refine ⟨h1, fun u => ?_⟩
  rw [h1]
  exact cachesMatch_cachesOpen cs DYNAMIC_CACHE_NAME u

/-- Witness for the amended C7: with the network down, caching a
one-element list commits nothing. -/
theorem cache_urls_atomic_witness :
    cachesMatch (handleCacheUrls netDown [] [INDEX_HTML]) INDEX_HTML =
      cachesMatch [] INDEX_HTML :=
  (cache_urls_atomic netDown [] [INDEX_HTML] rfl).2 INDEX_HTML

/-! ## Claim theorems: install flow controller -/

/-- The all-false installed-detection signals. -/
def sigNone : Signals :=
  { displayModeStandalone := false, navigatorStandalone := false,
    referrerAndroidApp := false }

/-- Counterexample to claim C2 as stated: after the app-installed event
sets `isInstalled` true, a later `checkInstalled` polling step at which
all three standalone signals are false sets it back to false — the
installed state is not absorbing. -/
theorem installed_absorbing_cx :
    (step initState Event.appInstalled).isInstalled = true ∧
    (step (step initState Event.appInstalled) (Event.checkInstalled sigNone)).isInstalled
      = false := by
  decide

/-- Claim C2 (amended): once `isInstalled` is true, the app-installed
event, the prompt flow and the capture handler never set it back to
false; the only step that does is a `checkInstalled` poll at which all
three standalone signals are false, which overwrites the flag with the
signal disjunction. -/
theorem installed_absorbing_amended (s : HookState) (e : Event) (h : s.isInstalled = true) :
    ((step s e).isInstalled = false ↔
      ∃ sig, e = Event.checkInstalled sig ∧ sig.displayModeStandalone = false ∧
        sig.navigatorStandalone = false ∧ sig.referrerAndroidApp = false) := by
  cases e with
  | checkInstalled sig =>
    obtain ⟨a, b, c⟩ := sig
    cases a <;> cases b <;> cases c <;> simp [step]
  | beforeInstallPrompt hasPrompt p =>
    cases hasPrompt <;> simp [step, h]
  | appInstalled => simp [step]
  | promptInstall res =>
    cases hd : s.deferredPrompt with
    | none => simp [step, promptInstallStep, hd, h]
    | some q =>
      cases res with
      | choice o => cases o <;> simp [step, promptInstallStep, hd, h]
      | threw => simp [step, promptInstallStep, hd, h]

/-- A state in which the app is already marked installed. -/
def installedState : HookState :=
  { canInstall := false, isInstalled := true, isPrompting := false,
    deferredPrompt := none }

/-- Witness for the amended C2: from an installed state, the all-false
poll is exactly the step that resets the flag. -/
theorem installed_absorbing_amended_witness :
    (step installedState (Event.checkInstalled sigNone)).isInstalled = false :=
  (installed_absorbing_amended installedState (Event.checkInstalled sigNone) rfl).mpr
    ⟨sigNone, rfl, rfl, rfl, rfl⟩

/-- Claim C6: single-use prompt — with a capture held, `promptInstall`
invokes the native prompt without warning and, whatever the outcome
(accepted, dismissed, or thrown), afterwards the capture is cleared,
`canInstall` is false and `isPrompting` is false; hence an immediately
following `promptInstall` call warns, performs no prompt, and changes no
state. -/
theorem single_use_prompt (s : HookState) (r1 r2 : PromptResult)
    (h : s.deferredPrompt.isSome = true) :
    ((promptInstallStep s r1).2.prompted = true ∧
      (promptInstallStep s r1).2.warned = false) ∧
    ((promptInstallStep s r1).1.deferredPrompt = none ∧
      (promptInstallStep s r1).1.canInstall = false ∧
      (promptInstallStep s r1).1.isPrompting = false) ∧
    promptInstallStep (promptInstallStep s r1).1 r2 =
      ((promptInstallStep s r1).1, { warned := true, prompted := false }) := by
  obtain ⟨p, hp⟩ := Option.isSome_iff_exists.mp h
  cases r1 with
  | choice o => cases o <;> simp [promptInstallStep, hp]
  | threw => simp [promptInstallStep, hp]

/-- A state holding a live install-prompt capture. -/
def promptReadyState : HookState :=
  { canInstall := true, isInstalled := false, isPrompting := false,
    deferredPrompt := some 0 }

/-- Witness for C6: after an accepted first prompt, a second call is a
warn-only no-op. -/
theorem single_use_prompt_witness :
    promptInstallStep
        (promptInstallStep promptReadyState (PromptResult.choice Outcome.accepted)).1
        PromptResult.threw =
      ((promptInstallStep promptReadyState (PromptResult.choice Outcome.accepted)).1,
        { warned := true, prompted := false }) :=
  (single_use_prompt promptReadyState (PromptResult.choice Outcome.accepted)
    PromptResult.threw rfl).2.2

/-- Claim C8: at each polling step, `isInstalled` is set to true exactly
when at least one of the three standalone signals holds — regardless of
the state the controller was in before the poll, so the flag converges
within one polling interval of the signal becoming true. -/
theorem installed_poll_iff (s : HookState) (sig : Signals) :
    ((step s (Event.checkInstalled sig)).isInstalled = true ↔
      (sig.displayModeStandalone = true ∨ sig.navigatorStandalone = true ∨
        sig.referrerAndroidApp = true)) := by
  simp [step, or_assoc]

/-! ## Claim theorems: data management -/

/-- Claim C9: upload resilience — `handleFileUpload` appends exactly one
entry, leaving every previously present entry unchanged; the new entry
carries the uploaded file's name and the freshly drawn id, has no content
when the text read rejected, and carries the read text when it
succeeded. -/
theorem upload_resilience (files : List FileItem) (fileName : String) (fileId : Nat)
    (readResult : Except String String) :
    ∃ e : FileItem, handleFileUpload files fileName fileId readResult = files ++ [e] ∧
      e.name = fileName ∧ e.id = fileId ∧
      (∀ msg, readResult = Except.error msg → e.content = none) ∧
      (∀ c, readResult = Except.ok c → e.content = some c) := by
  cases readResult with
  | ok c =>
    refine ⟨{ name := fileName, id := fileId, content := some c }, rfl, rfl, rfl, ?_, ?_⟩
    · intro msg hmsg
      cases hmsg
    · intro c2 hc2
      cases hc2
      rfl
  | error msg =>
    refine ⟨{ name := fileName, id := fileId, content := none }, rfl, rfl, rfl, ?_, ?_⟩
    · intro msg2 _
      rfl
    · intro c2 hc2
      cases hc2

/-- Claim C10: with an empty file list, `indexDocuments` returns without
invoking the supplied callback and leaves the whole state — in particular
`ragStatus` and `isIndexing` — unchanged, whether or not a callback is
supplied. -/
theorem index_documents_empty_noop (s : DMState)
    (cb : Option (List FileItem → Except String Unit)) (h : s.files = []) :
    indexDocuments s cb = (s, false) := by
  simp [indexDocuments, h]

/-- The hook's initial data-management state. -/
def emptyDMState : DMState :=
  { files := [], isIndexing := false, ragStatus := "Idle" }

/-- Witness for C10: on the initial empty state, indexing with a supplied
callback is a no-op that never calls it. -/
theorem index_documents_empty_noop_witness :
    indexDocuments emptyDMState (some (fun _ => Except.ok ())) = (emptyDMState, false) :=
  index_documents_empty_noop emptyDMState (some (fun _ => Except.ok ())) rfl

end LuminaRag
